import Mathlib

/-!
Verification of the Aetheria GLB/glTF asset-loading pipeline.

This file gives a shallow embedding of the glTF binary (GLB) loader of the
Aetheria engine: the container reader, the chunk table, accessor length
computation, accessor data extraction and mesh materialization from
`aether/src/fs/gltf/mod.rs` and `aether/src/fs/gltf/json.rs`, together with
the node transform composition and buffer validation of the older revision
`aether/src/fs/gltf.rs`.

Modelling conventions:
* byte streams are `List Nat`, each element one byte (reads reduce modulo 256
  exactly where the machine byte type does);
* `eyre::Result` error returns (`ensure!`, `eyre!`, the `?` operator) are
  `Except.error (LoadErr.errMsg _)`;
* `panic!`, out-of-bounds `Vec`/slice indexing and `HashMap` indexing are
  `Except.error (LoadErr.panicMsg _)` -- a Rust panic aborts and is a
  distinct mechanism from a recoverable error value;
* the serde JSON deserializer is an external collaborator, so `Gltf.load`
  takes the deserialization function as an explicit parameter;
* floating point node data uses exact rationals (all inputs exercised here
  are small integers, on which f32 arithmetic is exact).
-/

namespace Aetheria

/-- Failure channel of the embedded Rust code: `errMsg` is a recoverable
`Result::Err` value (eyre), `panicMsg` is a `panic!` / indexing abort. -/
inductive LoadErr where
  | errMsg (msg : String)
  | panicMsg (msg : String)
deriving DecidableEq, Repr

instance {e a : Type} [DecidableEq e] [DecidableEq a] : DecidableEq (Except e a) := fun x y =>
  match x, y with
  | .ok v, .ok w => if h : v = w then isTrue (by rw [h]) else isFalse (by simp [h])
  | .error v, .error w => if h : v = w then isTrue (by rw [h]) else isFalse (by simp [h])
  | .ok _, .error _ => isFalse (by simp)
  | .error _, .ok _ => isFalse (by simp)

namespace Json

/-- Newtype `AccessorRef(pub usize)` from `fs/gltf/json.rs`. -/
structure AccessorRef where
  idx : Nat
deriving DecidableEq, Repr

/-- Struct `Accessor` from `fs/gltf/json.rs`. -/
structure Accessor where
  buffer_view : Nat
  byte_offset : Nat
  component_type : Nat
  count : Nat
  element_type : String
deriving DecidableEq, Repr

/-- Struct `Buffer` from `fs/gltf/json.rs`. -/
structure Buffer where
  byte_length : Nat
deriving DecidableEq, Repr

/-- Struct `BufferView` from `fs/gltf/json.rs`. -/
structure BufferView where
  buffer : Nat
  byte_offset : Nat
  byte_length : Nat
deriving DecidableEq, Repr

/-- Struct `MeshPrimitive` from `fs/gltf/json.rs`; the `HashMap` of
attributes is modelled as an association list. -/
structure MeshPrimitive where
  attributes : List (String × AccessorRef)
  indices : Option AccessorRef
deriving DecidableEq, Repr

/-- Struct `Mesh` from `fs/gltf/json.rs`. -/
structure Mesh where
  primitives : List MeshPrimitive
deriving DecidableEq, Repr

/-- Struct `Node` from `fs/gltf/json.rs` (f32 components as rationals). -/
structure Node where
  children : List Nat
  matrix : Option (List ℚ)
  translation : Option (ℚ × ℚ × ℚ)
  rotation : Option (ℚ × ℚ × ℚ × ℚ)
  scale : Option (ℚ × ℚ × ℚ)
  mesh : Option Nat
deriving DecidableEq, Repr

/-- Struct `Scene` from `fs/gltf/json.rs`. -/
structure Scene where
  nodes : List Nat
deriving DecidableEq, Repr

/-- Struct `Gltf` from `fs/gltf/json.rs`: the deserialized JSON chunk. -/
structure Gltf where
  accessors : List Accessor
  buffers : List Buffer
  buffer_views : List BufferView
  meshes : List Mesh
  nodes : List Node
  scenes : List Scene
  scene : Nat
deriving DecidableEq, Repr

end Json

/-- Constant `GLB_MAGIC` from `fs/gltf/mod.rs`. -/
def GLB_MAGIC : Nat := 0x46546C67

/-- Enum `GlbChunkType` from `fs/gltf/mod.rs`. -/
inductive GlbChunkType where
  | json
  | binary
deriving DecidableEq, BEq, Repr

/-- Discriminant values of `GlbChunkType` (`Json = 0x4E4F534A`,
`Binary = 0x004E4942`). -/
def GlbChunkType.code : GlbChunkType → Nat
  | .json => 0x4E4F534A
  | .binary => 0x004E4942

/-- The derived `FromPrimitive::from_u32` of `GlbChunkType`. -/
def GlbChunkType.fromU32 (n : Nat) : Option GlbChunkType :=
  if n = 0x4E4F534A then some .json
  else if n = 0x004E4942 then some .binary
  else none

/-- Struct `GlbChunk` from `fs/gltf/mod.rs`. -/
structure GlbChunk where
  chunk_type : GlbChunkType
  data : List Nat
deriving DecidableEq, Repr

/-- Method `GlbChunks::get_chunk`: the first chunk of the requested type, in
stream order. -/
def get_chunk (chunks : List GlbChunk) (ty : GlbChunkType) : Option (List Nat) :=
  (chunks.find? (fun chunk => chunk.chunk_type == ty)).map (fun chunk => chunk.data)

/-- Little-endian decoding of four bytes, as in `u32::from_le_bytes`; each
byte is reduced modulo 256 because the machine byte type carries that bound. -/
def u32le (b0 b1 b2 b3 : Nat) : Nat :=
  b0 % 256 + 256 * (b1 % 256) + 65536 * (b2 % 256) + 16777216 * (b3 % 256)

/-- Method `GlbReader::read_u32` of `Cursor<Vec<u8>>` in `fs/gltf/mod.rs`:
reads four bytes (error on a short stream) and decodes little-endian,
returning the remaining stream. -/
def readU32 (s : List Nat) : Except LoadErr (Nat × List Nat) :=
  match s with
  | b0 :: b1 :: b2 :: b3 :: rest => .ok (u32le b0 b1 b2 b3, rest)
  | _ => .error (.errMsg "failed to fill whole buffer")

theorem readU32_ok_length {s : List Nat} {v : Nat} {r : List Nat}
    (h : readU32 s = .ok (v, r)) : r.length + 4 = s.length := by
  unfold readU32 at h
  match s with
  | b0 :: b1 :: b2 :: b3 :: rest =>
    simp only [Except.ok.injEq, Prod.mk.injEq] at h
    simp [← h.2]
  | [] | [_] | [_, _] | [_, _, _] => simp at h

theorem readU32_ok_drop {s : List Nat} {v : Nat} {r : List Nat}
    (h : readU32 s = .ok (v, r)) : r = s.drop 4 := by
  unfold readU32 at h
  match s with
  | b0 :: b1 :: b2 :: b3 :: rest =>
    simp only [Except.ok.injEq, Prod.mk.injEq] at h
    simp [← h.2]
  | [] | [_] | [_, _] | [_, _, _] => simp at h

/-- The `while let Ok(chunk_length) = buffer.read_u32()` chunk loop of
`Gltf::load` in `fs/gltf/mod.rs`. A failed length read (fewer than four
bytes left) ends the loop; a failed type read or a short chunk body
propagates the `read_exact` IO error through `?`; an unrecognized chunk type
code is a fatal format error. The two `read_u32` calls are inlined as the
eight leading byte patterns. -/
def readChunks : List Nat → Except LoadErr (List GlbChunk)
  | b0 :: b1 :: b2 :: b3 :: c0 :: c1 :: c2 :: c3 :: rest =>
    let chunkLength := u32le b0 b1 b2 b3
    let tyCode := u32le c0 c1 c2 c3
    if chunkLength ≤ rest.length then
      match GlbChunkType.fromU32 tyCode with
      | none => .error (.errMsg (toString tyCode ++ " is not a valid GLB chunk type"))
      | some ty =>
        match readChunks (rest.drop chunkLength) with
        | .error e => .error e
        | .ok chunks => .ok (⟨ty, rest.take chunkLength⟩ :: chunks)
    else .error (.errMsg "failed to fill whole buffer")
  | _ :: _ :: _ :: _ :: _ => .error (.errMsg "failed to fill whole buffer")
  | _ => .ok []
termination_by stream => stream.length
decreasing_by
  simp only [List.length_drop, List.length_cons]
  omega

/-- Struct `Gltf` from `fs/gltf/mod.rs`: the parsed JSON descriptor plus the
bytes of the binary chunk. -/
structure Gltf where
  gltf : Json.Gltf
  buffer : List Nat
deriving DecidableEq, Repr

/-- Method `Gltf::load` from `fs/gltf/mod.rs`. The serde-based
`load_json_chunk` is an external collaborator and is passed in as
`parseJson`; `path` only feeds the error messages. -/
def Gltf.load (parseJson : List Nat → Except LoadErr Json.Gltf) (path : String)
    (stream : List Nat) : Except LoadErr Gltf :=
  match readU32 stream with
  | .error e => .error e
  | .ok (magic, s1) =>
    match readU32 s1 with
    | .error e => .error e
    | .ok (version, s2) =>
      match readU32 s2 with
      | .error e => .error e
      | .ok (_length, s3) =>
        if magic ≠ GLB_MAGIC then
          .error (.errMsg (path ++ " is not a valid GLB file due to the missing magic number"))
        else if version ≠ 2 then
          .error (.errMsg ("Aether only support GLB version 2, you are trying to use version "
            ++ toString version))
        else
          match readChunks s3 with
          | .error e => .error e
          | .ok chunks =>
            match get_chunk chunks .json with
            | none => .error (.errMsg ("GLB file " ++ path ++ " has no JSON chunk"))
            | some jsonData =>
              match parseJson jsonData with
              | .error e => .error e
              | .ok gltf =>
                match get_chunk chunks .binary with
                | none => .error (.errMsg ("GLB file " ++ path ++ " has no binary chunk"))
                | some binaryData => .ok ⟨gltf, binaryData⟩

/-- Indexing `xs[i]` on a `Vec`: panics (with the standard message) when the
index is out of bounds. -/
def vecIndex (xs : List α) (i : Nat) : Except LoadErr α :=
  if h : i < xs.length then .ok (xs.get ⟨i, h⟩)
  else .error (.panicMsg ("index out of bounds: the len is " ++ toString xs.length
    ++ " but the index is " ++ toString i))

/-- Slicing `&buf[start..stop]`: panics (with the standard messages) when the
range leaves the slice. -/
def sliceRange (buf : List Nat) (start stop : Nat) : Except LoadErr (List Nat) :=
  if buf.length < stop then
    .error (.panicMsg ("range end index " ++ toString stop
      ++ " out of range for slice of length " ++ toString buf.length))
  else if stop < start then
    .error (.panicMsg ("slice index starts at " ++ toString start
      ++ " but ends at " ++ toString stop))
  else .ok ((buf.drop start).take (stop - start))

/-- The `match accessor.component_type` arm of `Gltf::get_accessor_length` in
`fs/gltf/mod.rs`: byte width of a component type code, `panic!` on any other
code. -/
def componentTypeSize (code : Nat) : Except LoadErr Nat :=
  if code = 5120 ∨ code = 5121 then .ok 1
  else if code = 5122 ∨ code = 5123 then .ok 2
  else if code = 5125 ∨ code = 5126 then .ok 4
  else .error (.panicMsg ("Invalid glTF accessor component type " ++ toString code))

/-- The `match accessor.element_type.as_str()` arm of
`Gltf::get_accessor_length` in `fs/gltf/mod.rs`: component count of an
element type string, `panic!` on any other string. -/
def elementTypeCount (ty : String) : Except LoadErr Nat :=
  if ty = "SCALAR" then .ok 1
  else if ty = "VEC2" then .ok 2
  else if ty = "VEC3" then .ok 3
  else if ty = "VEC4" ∨ ty = "MAT2" then .ok 4
  else if ty = "MAT3" then .ok 9
  else if ty = "MAT4" then .ok 16
  else .error (.panicMsg ("Invalid glTF accessor element type " ++ ty))

/-- Method `Gltf::get_accessor_length` from `fs/gltf/mod.rs`:
element component count times component byte width times element count. -/
def Gltf.get_accessor_length (accessor : Json.Accessor) : Except LoadErr Nat := do
  let element_type ← elementTypeCount accessor.element_type
  let component_type ← componentTypeSize accessor.component_type
  return element_type * component_type * accessor.count

/-- Method `Gltf::load_accessor_data` from `fs/gltf/mod.rs`: looks up the
accessor and its buffer view, then returns the slice of the binary chunk at
`[byte_offset + view offset, .. + length)`. The Rust function returns a bare
`&[u8]` and panics on any out-of-range index; those panics are the
`panicMsg` branch here. -/
def Gltf.load_accessor_data (g : Gltf) (accessor_ref : Json.AccessorRef) :
    Except LoadErr (List Nat) := do
  let accessor ← vecIndex g.gltf.accessors accessor_ref.idx
  let buffer_view ← vecIndex g.gltf.buffer_views accessor.buffer_view
  let offset := accessor.byte_offset + buffer_view.byte_offset
  let length ← Gltf.get_accessor_length accessor
  sliceRange g.buffer offset (offset + length)

/-- Struct `Vertex` from `vulkan/vertex.rs`: a `[f32; 3]` position, kept as
the three little-endian 32-bit words (bit patterns) of its 12 bytes. -/
structure Vertex where
  position : Nat × Nat × Nat
deriving DecidableEq, Repr

/-- The vulkano `BufferContents::from_bytes` for `Vertex`: requires exactly
12 bytes (the size check; hardware alignment is outside this embedding). -/
def Vertex.from_bytes (bytes : List Nat) : Except String Vertex :=
  match bytes with
  | [a0, a1, a2, a3, b0, b1, b2, b3, c0, c1, c2, c3] =>
    .ok ⟨(u32le a0 a1 a2 a3, u32le b0 b1 b2 b3, u32le c0 c1 c2 c3)⟩
  | _ => .error "SizeMismatch"

/-- The vulkano `BufferContents::from_bytes` for `u16`: requires exactly two
bytes, decoded little-endian. -/
def u16_from_bytes (bytes : List Nat) : Except String Nat :=
  match bytes with
  | [b0, b1] => .ok (b0 % 256 + 256 * (b1 % 256))
  | _ => .error "SizeMismatch"

/-- Recursion core of `chunksOf`, structurally recursive on a fuel bound so
that concrete calls reduce in the kernel; `chunksOf` always supplies enough
fuel because every step removes at least one element. -/
def chunksGo (n : Nat) : Nat → List α → List (List α)
  | 0, _ => []
  | _, [] => []
  | fuel + 1, x :: xs =>
    if n = 0 then []
    else (x :: xs).take n :: chunksGo n fuel ((x :: xs).drop n)

/-- Slice method `chunks(n)` (used with `n = 12` and `n = 2`): groups of `n`
elements, the last group possibly shorter. -/
def chunksOf (n : Nat) (l : List α) : List (List α) :=
  chunksGo n (l.length + 1) l

/-- Short-circuiting `Iterator::map(..).collect()` over fallible element
conversions: the first failure aborts the whole collection. -/
def collectResults (f : α → Except LoadErr β) : List α → Except LoadErr (List β)
  | [] => .ok []
  | x :: xs => do
    let y ← f x
    let ys ← collectResults f xs
    return y :: ys

/-- Indexing `attributes["POSITION"]` on the `HashMap`: panics with the
standard message when the key is absent. -/
def lookupAttr (attrs : List (String × Json.AccessorRef)) (key : String) :
    Except LoadErr Json.AccessorRef :=
  match attrs.lookup key with
  | some v => .ok v
  | none => .error (.panicMsg "no entry found for key")

/-- Struct `MeshData` from `types/mesh.rs`: flat vertex and 32-bit index
arrays (indices as `Nat`, produced by `u32::from` of a `u16`). -/
structure MeshData where
  vertices : List Vertex
  indices : List Nat
deriving DecidableEq, Repr

/-- The `match primitive.indices` step of the per-primitive closure in
`Gltf::to_meshes`: the accessor reference when present, a `panic!` when the
primitive has no index accessor. -/
def requireIndices (primitive : Json.MeshPrimitive) : Except LoadErr Json.AccessorRef :=
  match primitive.indices with
  | some indices => .ok indices
  | none => .error (.panicMsg "Aether currently doesn't support glTF meshes without index buffers")

/-- Body of the per-primitive closure inside `Gltf::to_meshes` in
`fs/gltf/mod.rs`: extract the POSITION accessor bytes, reinterpret each
12-byte chunk as a `Vertex` (`panic!` on failure), then extract the index
accessor bytes (`panic!` when the primitive has no indices) and reinterpret
each 2-byte chunk as a `u16` widened with `u32::from`. -/
def Gltf.primitive_to_mesh_data (g : Gltf) (primitive : Json.MeshPrimitive) :
    Except LoadErr MeshData := do
  let posRef ← lookupAttr primitive.attributes "POSITION"
  let vertexBytes ← g.load_accessor_data posRef
  let vertices ← collectResults (fun bytes =>
    match Vertex.from_bytes bytes with
    | .ok vertex => .ok vertex
    | .error e => .error (.panicMsg ("Failed to turn " ++ toString bytes
        ++ " into a Vertex due to " ++ e))) (chunksOf 12 vertexBytes)
  let indicesRef ← requireIndices primitive
  let indexBytes ← g.load_accessor_data indicesRef
  let indices ← collectResults (fun bytes =>
    match u16_from_bytes bytes with
    | .ok index => .ok index
    | .error e => .error (.panicMsg ("Failed to turn " ++ toString bytes
        ++ " into a index due to " ++ e))) (chunksOf 2 indexBytes)
  return ⟨vertices, indices⟩

/-- Method `Gltf::to_meshes` from `fs/gltf/mod.rs`: `flat_map` over meshes of
the per-primitive conversion; any conversion `panic!` aborts the whole call. -/
def Gltf.to_meshes (g : Gltf) : Except LoadErr (List MeshData) := do
  let nested ← collectResults
    (fun mesh => collectResults (Gltf.primitive_to_mesh_data g) mesh.primitives)
    g.gltf.meshes
  return nested.flatten

namespace GltfRs

/-- Column-major 4x4 matrix over exact rationals, standing in for
`nalgebra_glm::Mat4` (entries indexed row, column). -/
def Mat4 : Type := Fin 4 → Fin 4 → ℚ

instance : DecidableEq Mat4 := by
  unfold Mat4
  infer_instance

/-- Function `nalgebra_glm::identity`. -/
def identityMat : Mat4 := fun i j => if i = j then 1 else 0

/-- Matrix product (row i of `a` against column j of `b`). -/
def matMul (a b : Mat4) : Mat4 := fun i j =>
  a i 0 * b 0 j + a i 1 * b 1 j + a i 2 * b 2 j + a i 3 * b 3 j

/-- Function `nalgebra_glm::make_mat4`: fills the matrix from a 16-element
slice in column-major order (entry (i, j) from slice index 4 j + i). -/
def make_mat4 (values : List ℚ) : Mat4 := fun i j =>
  values.getD (4 * j.val + i.val) 0

/-- Homogeneous non-uniform scaling matrix with diagonal (x, y, z, 1). -/
def scalingMat (v : ℚ × ℚ × ℚ) : Mat4 := fun i j =>
  if i = j then
    match i with
    | 0 => v.1
    | 1 => v.2.1
    | 2 => v.2.2
    | 3 => 1
  else 0

/-- Homogeneous translation matrix: identity with last column (x, y, z, 1). -/
def translationMat (v : ℚ × ℚ × ℚ) : Mat4 := fun i j =>
  if j = 3 ∧ i ≠ 3 then
    match i with
    | 0 => v.1
    | 1 => v.2.1
    | 2 => v.2.2
    | 3 => 0
  else if i = j then 1 else 0

/-- Function `nalgebra_glm::scale`: `m` times the scaling matrix (the
scaling is prepended, i.e. applied to a point first). -/
def scaleGlm (m : Mat4) (v : ℚ × ℚ × ℚ) : Mat4 := matMul m (scalingMat v)

/-- Function `nalgebra_glm::translate`: `m` times the translation matrix
(the translation is prepended, i.e. applied to a point first). -/
def translateGlm (m : Mat4) (v : ℚ × ℚ × ℚ) : Mat4 := matMul m (translationMat v)

/-- Function `nalgebra_glm::matrix_comp_mult`: component-wise (Hadamard)
product, not a matrix product. -/
def matrix_comp_mult (a b : Mat4) : Mat4 := fun i j => a i j * b i j

/-- Function `nalgebra_glm::quat_to_mat4` on a quaternion (x, y, z, w):
normalizes (`UnitQuaternion::from_quaternion`) and converts to a homogeneous
rotation matrix. Because every entry of the rotation matrix is quadratic in
the normalized components, the normalization contributes exactly a division
by the squared norm, which stays rational. -/
def quat_to_mat4 (q : ℚ × ℚ × ℚ × ℚ) : Mat4 :=
  let x := q.1
  let y := q.2.1
  let z := q.2.2.1
  let w := q.2.2.2
  let n2 := x * x + y * y + z * z + w * w
  fun i j =>
    match i, j with
    | 0, 0 => 1 - 2 * (y * y + z * z) / n2
    | 0, 1 => 2 * (x * y - w * z) / n2
    | 0, 2 => 2 * (x * z + w * y) / n2
    | 1, 0 => 2 * (x * y + w * z) / n2
    | 1, 1 => 1 - 2 * (x * x + z * z) / n2
    | 1, 2 => 2 * (y * z - w * x) / n2
    | 2, 0 => 2 * (x * z - w * y) / n2
    | 2, 1 => 2 * (y * z + w * x) / n2
    | 2, 2 => 1 - 2 * (x * x + y * y) / n2
    | 3, 3 => 1
    | _, _ => 0

/-- Struct `json::Node` from `fs/gltf.rs` (f32 data as exact rationals). -/
structure Node where
  children : List Nat
  matrix : Option (List ℚ)
  translation : Option (ℚ × ℚ × ℚ)
  rotation : Option (ℚ × ℚ × ℚ × ℚ)
  scale : Option (ℚ × ℚ × ℚ)
  mesh : Option Nat

/-- Method `json::Node::get_matrix` from `fs/gltf.rs`: an explicit matrix is
used verbatim (column-major); otherwise, starting from the identity, the
code applies `scale(m, s)` (= m S), then
`matrix_comp_mult(quat_to_mat4(r), m)` (a component-wise product), then
`translate(m, t)` (= m T). -/
def Node.get_matrix (node : Node) : Mat4 :=
  match node.matrix with
  | some values => make_mat4 values
  | none =>
    let m0 : Mat4 := identityMat
    let m1 := match node.scale with
      | some values => scaleGlm m0 values
      | none => m0
    let m2 := match node.rotation with
      | some values => matrix_comp_mult (quat_to_mat4 values) m1
      | none => m1
    let m3 := match node.translation with
      | some values => translateGlm m2 values
      | none => m2
    m3

/-- Struct `json::Buffer` from `fs/gltf.rs`. -/
structure JsonBuffer where
  byte_length : Nat
  uri : Option String
deriving DecidableEq, Repr

/-- Struct `Buffer` from `fs/gltf.rs`. -/
structure Buffer where
  length : Nat
  data : List Nat
deriving DecidableEq, Repr

/-- Method `Gltf::load_buffers` from `fs/gltf.rs`, taking the `buffers`
table of the deserialized JSON: `ensure!` that at most one buffer is
declared (recoverable error otherwise), then index `buffers[0]` (a panic
when the table is empty). -/
def load_buffers (binary_chunk_data : List Nat) (buffers : List JsonBuffer) :
    Except LoadErr Buffer :=
  if buffers.length ≤ 1 then
    match buffers with
    | b :: _ => .ok ⟨b.byte_length, binary_chunk_data⟩
    | [] => .error (.panicMsg "index out of bounds: the len is 0 but the index is 0")
  else .error (.errMsg "Aether currently only support loading data from the .glb binary chunk")

end GltfRs

/-- Modelled from the spec: the node transform the specification prescribes
when no explicit matrix is present -- "compose a transform starting from
identity, applying scale, then rotation (quaternion to matrix), then
translation, in that fixed order", so a point is scaled first and translated
last, i.e. the matrix T R S. Used only to compare against the embedded
`GltfRs.Node.get_matrix`. -/
def specTransformTRS (t : ℚ × ℚ × ℚ) (r : ℚ × ℚ × ℚ × ℚ) (s : ℚ × ℚ × ℚ) :
    GltfRs.Mat4 :=
  GltfRs.matMul (GltfRs.translationMat t)
    (GltfRs.matMul (GltfRs.quat_to_mat4 r) (GltfRs.scalingMat s))

/-! ## Synthetic GLB stream construction

The testable properties of the specification quantify over synthetically
constructed GLB streams; `encodeGlb` builds the byte stream for a header
plus a list of typed chunks, mirroring the container format the reader
consumes. -/

/-- Little-endian encoding of a 32-bit word into four bytes. -/
def encodeU32 (n : Nat) : List Nat :=
  [n % 256, n / 256 % 256, n / 65536 % 256, n / 16777216 % 256]

/-- Encoding of one chunk: 4-byte length, 4-byte type code, then the data. -/
def encodeChunk (c : GlbChunkType × List Nat) : List Nat :=
  encodeU32 c.2.length ++ encodeU32 c.1.code ++ c.2

/-- Encoding of a chunk sequence. -/
def encodeChunkList (cs : List (GlbChunkType × List Nat)) : List Nat :=
  (cs.map encodeChunk).flatten

/-- Encoding of a whole GLB stream: magic, version 2, a length word (the
loader ignores it; zero here), then the chunks. -/
def encodeGlb (cs : List (GlbChunkType × List Nat)) : List Nat :=
  encodeU32 GLB_MAGIC ++ encodeU32 2 ++ encodeU32 0 ++ encodeChunkList cs

theorem u32le_encode {n : Nat} (h : n < 4294967296) :
    u32le (n % 256) (n / 256 % 256) (n / 65536 % 256) (n / 16777216 % 256) = n := by
  unfold u32le
  omega

theorem readU32_encode (n : Nat) (rest : List Nat) (h : n < 4294967296) :
    readU32 (encodeU32 n ++ rest) = .ok (n, rest) := by
  simp [encodeU32, readU32, u32le_encode h]

theorem readU32_encode_mod (n : Nat) (rest : List Nat) :
    readU32 (encodeU32 n ++ rest) = .ok (n % 4294967296, rest) := by
  simp only [encodeU32, List.cons_append, List.nil_append, readU32, u32le]
  refine congrArg _ (Prod.ext ?_ rfl)
  simp only
  omega

theorem fromU32_code (ty : GlbChunkType) : GlbChunkType.fromU32 ty.code = some ty := by
  cases ty <;> rfl

theorem code_lt (ty : GlbChunkType) : ty.code < 4294967296 := by
  cases ty <;> decide

theorem readChunks_encodeList (cs : List (GlbChunkType × List Nat))
    (h : ∀ c ∈ cs, (c.2).length < 4294967296) :
    readChunks (encodeChunkList cs) = .ok (cs.map fun c => ⟨c.1, c.2⟩) := by
  induction cs with
  | nil => simp [encodeChunkList, readChunks]
  | cons c cs ih =>
    have hlen : (c.2).length < 4294967296 := h c (List.mem_cons_self c cs)
    have hrest : ∀ d ∈ cs, (d.2).length < 4294967296 :=
      fun d hd => h d (List.mem_cons_of_mem c hd)
    have hc : encodeChunkList (c :: cs) =
        (c.2).length % 256 :: (c.2).length / 256 % 256 :: (c.2).length / 65536 % 256 ::
        (c.2).length / 16777216 % 256 :: c.1.code % 256 :: c.1.code / 256 % 256 ::
        c.1.code / 65536 % 256 :: c.1.code / 16777216 % 256 :: (c.2 ++ encodeChunkList cs) := by
      simp [encodeChunkList, encodeChunk, encodeU32]
    rw [hc, readChunks]
    have hlenEq : u32le ((c.2).length % 256) ((c.2).length / 256 % 256)
        ((c.2).length / 65536 % 256) ((c.2).length / 16777216 % 256) = (c.2).length :=
      u32le_encode hlen
    have hcodeEq : u32le (c.1.code % 256) (c.1.code / 256 % 256)
        (c.1.code / 65536 % 256) (c.1.code / 16777216 % 256) = c.1.code :=
      u32le_encode (code_lt c.1)
    simp only [hlenEq, hcodeEq, fromU32_code, List.length_append,
      Nat.le_add_right, if_pos, List.take_left, List.drop_left, ih hrest,
      List.map_cons]

theorem get_chunk_map (cs : List (GlbChunkType × List Nat)) (ty : GlbChunkType) :
    get_chunk (cs.map fun c => ⟨c.1, c.2⟩) ty =
      (cs.find? (fun c => c.1 == ty)).map (fun c => c.2) := by
  induction cs with
  | nil => simp [get_chunk]
  | cons c cs ih =>
    by_cases hc : c.1 == ty
    · simp [get_chunk, List.find?, hc]
    · simp only [get_chunk, List.map_cons, List.find?] at *
      simp only [hc, Bool.false_eq_true, if_neg, cond_false] at *
      exact ih

/-- Behaviour of `Gltf::load` on any synthetically encoded GLB stream whose
chunk payload lengths fit in 32 bits: header and chunk parsing succeed, and
the result is determined by the first JSON chunk, the JSON parse, and the
first binary chunk. -/
theorem load_encodeGlb (parseJson : List Nat → Except LoadErr Json.Gltf)
    (path : String) (cs : List (GlbChunkType × List Nat))
    (h : ∀ c ∈ cs, (c.2).length < 4294967296) :
    Gltf.load parseJson path (encodeGlb cs) =
      match get_chunk (cs.map fun c => ⟨c.1, c.2⟩) .json with
      | none => .error (.errMsg ("GLB file " ++ path ++ " has no JSON chunk"))
      | some jsonData =>
        match parseJson jsonData with
        | .error e => .error e
        | .ok gltf =>
          match get_chunk (cs.map fun c => ⟨c.1, c.2⟩) .binary with
          | none => .error (.errMsg ("GLB file " ++ path ++ " has no binary chunk"))
          | some binaryData => .ok ⟨gltf, binaryData⟩ := by
  unfold encodeGlb Gltf.load
  simp only [List.append_assoc]
  simp only [readU32_encode GLB_MAGIC (encodeU32 2 ++ (encodeU32 0 ++ encodeChunkList cs))
      (by decide),
    readU32_encode 2 (encodeU32 0 ++ encodeChunkList cs) (by decide),
    readU32_encode 0 (encodeChunkList cs) (by decide),
    readChunks_encodeList cs h]
  simp [GLB_MAGIC]

theorem except_bind_ok {α β : Type} {a : Except LoadErr α} {f : α → Except LoadErr β}
    {v : β} (h : (a >>= f) = .ok v) : ∃ w, a = .ok w ∧ f w = .ok v := by
  cases a with
  | error e => simp [Bind.bind, Except.bind] at h
  | ok w => exact ⟨w, rfl, by simpa [Bind.bind, Except.bind] using h⟩

theorem collectResults_ok_mem {α β : Type} {f : α → Except LoadErr β} :
    ∀ {l : List α} {ys : List β}, collectResults f l = .ok ys →
      ∀ y ∈ ys, ∃ x ∈ l, f x = .ok y := by
  intro l
  induction l with
  | nil =>
    intro ys h y hy
    simp only [collectResults, Except.ok.injEq] at h
    subst h
    simp at hy
  | cons x xs ih =>
    intro ys h y hy
    simp only [collectResults] at h
    obtain ⟨w, hw, h2⟩ := except_bind_ok h
    obtain ⟨ws, hws, h3⟩ := except_bind_ok h2
    simp only [pure, Except.pure, Except.ok.injEq] at h3
    subst h3
    rcases List.mem_cons.mp hy with hy1 | hy2
    · exact ⟨x, List.mem_cons_self x xs, hy1 ▸ hw⟩
    · obtain ⟨x2, hx2, hfx2⟩ := ih hws y hy2
      exact ⟨x2, List.mem_cons_of_mem x hx2, hfx2⟩

theorem collectResults_ok_forall {α β : Type} {f : α → Except LoadErr β} :
    ∀ {l : List α} {ys : List β}, collectResults f l = .ok ys →
      ∀ x ∈ l, ∃ y, f x = .ok y := by
  intro l
  induction l with
  | nil =>
    intro ys _ x hx
    simp at hx
  | cons x xs ih =>
    intro ys h x2 hx2
    simp only [collectResults] at h
    obtain ⟨w, hw, h2⟩ := except_bind_ok h
    obtain ⟨ws, hws, _⟩ := except_bind_ok h2
    rcases List.mem_cons.mp hx2 with hx | hx
    · exact ⟨w, hx ▸ hw⟩
    · exact ih hws x2 hx

theorem u16_from_bytes_lt {bytes : List Nat} {v : Nat}
    (h : u16_from_bytes bytes = .ok v) : v < 65536 := by
  match bytes with
  | [b0, b1] =>
    simp only [u16_from_bytes, Except.ok.injEq] at h
    have h0 : b0 % 256 < 256 := Nat.mod_lt _ (by decide)
    have h1 : b1 % 256 < 256 := Nat.mod_lt _ (by decide)
    omega
  | [] | [_] | _ :: _ :: _ :: _ => simp [u16_from_bytes] at h

/-- Success shape of `Gltf::load_accessor_data`: when the accessor and its
buffer view resolve, the type tables accept the accessor, and the computed
range lies inside the buffer, the result is exactly the slice of the binary
buffer at `[offset, offset + length)`. -/
theorem load_accessor_data_ok (g : Gltf) (i : Nat) (a : Json.Accessor)
    (bv : Json.BufferView) (len : Nat)
    (ha : vecIndex g.gltf.accessors i = .ok a)
    (hbv : vecIndex g.gltf.buffer_views a.buffer_view = .ok bv)
    (hlen : Gltf.get_accessor_length a = .ok len)
    (hrange : a.byte_offset + bv.byte_offset + len ≤ g.buffer.length) :
    g.load_accessor_data ⟨i⟩ =
      .ok ((g.buffer.drop (a.byte_offset + bv.byte_offset)).take len) := by
  unfold Gltf.load_accessor_data
  simp only [Bind.bind, Except.bind, ha, hbv, hlen, sliceRange]
  rw [if_neg (by omega), if_neg (by omega)]
  have heq : a.byte_offset + bv.byte_offset + len - (a.byte_offset + bv.byte_offset) = len := by
    omega
  rw [heq]

/-- Failure shape of `Gltf::load_accessor_data` on an out-of-range accessor:
the slice expression `&self.buffer[offset..offset + length]` panics with the
standard range message. -/
theorem load_accessor_data_oob (g : Gltf) (i : Nat) (a : Json.Accessor)
    (bv : Json.BufferView) (len : Nat)
    (ha : vecIndex g.gltf.accessors i = .ok a)
    (hbv : vecIndex g.gltf.buffer_views a.buffer_view = .ok bv)
    (hlen : Gltf.get_accessor_length a = .ok len)
    (hrange : g.buffer.length < a.byte_offset + bv.byte_offset + len) :
    g.load_accessor_data ⟨i⟩ =
      .error (.panicMsg ("range end index "
        ++ toString (a.byte_offset + bv.byte_offset + len)
        ++ " out of range for slice of length " ++ toString g.buffer.length)) := by
  unfold Gltf.load_accessor_data
  simp only [Bind.bind, Except.bind, ha, hbv, hlen, sliceRange]
  rw [if_pos (by omega)]

theorem primitive_ok_has_indices {g : Gltf} {p : Json.MeshPrimitive} {md : MeshData}
    (h : Gltf.primitive_to_mesh_data g p = .ok md) : p.indices ≠ none := by
  unfold Gltf.primitive_to_mesh_data at h
  obtain ⟨posRef, h1, h⟩ := except_bind_ok h
  obtain ⟨vb, h2, h⟩ := except_bind_ok h
  obtain ⟨vs, h3, h⟩ := except_bind_ok h
  obtain ⟨ir, h4, h⟩ := except_bind_ok h
  intro hnone
  rw [requireIndices, hnone] at h4
  simp at h4

theorem primitive_ok_indices_lt {g : Gltf} {p : Json.MeshPrimitive} {md : MeshData}
    (h : Gltf.primitive_to_mesh_data g p = .ok md) : ∀ i ∈ md.indices, i < 65536 := by
  unfold Gltf.primitive_to_mesh_data at h
  obtain ⟨posRef, h1, h⟩ := except_bind_ok h
  obtain ⟨vb, h2, h⟩ := except_bind_ok h
  obtain ⟨vs, h3, h⟩ := except_bind_ok h
  obtain ⟨ir, h4, h⟩ := except_bind_ok h
  obtain ⟨ib, h5, h⟩ := except_bind_ok h
  obtain ⟨idxs, h6, h⟩ := except_bind_ok h
  simp only [pure, Except.pure, Except.ok.injEq] at h
  intro i hi
  rw [← h] at hi
  simp only at hi
  obtain ⟨bytes, _, hb⟩ := collectResults_ok_mem h6 i hi
  revert hb
  cases hu : u16_from_bytes bytes with
  | error e => simp
  | ok v =>
    intro hb
    simp only [Except.ok.injEq] at hb
    exact hb ▸ u16_from_bytes_lt hu

/-! ## Claims -/

/-- C5: for every byte stream whose first little-endian 32-bit word differs
from `0x46546C67`, or whose second word differs from 2, `Gltf::load` fails
with the corresponding format error; the failure is independent of
everything after the 12-byte header (no chunk header or payload is read)
and of the JSON parser. -/
theorem C5_bad_magic_or_version_rejected :
    (∀ (parseJson : List Nat → Except LoadErr Json.Gltf) (path : String)
      (m v l : Nat) (rest : List Nat), m < 4294967296 → v < 4294967296 → m ≠ GLB_MAGIC →
      Gltf.load parseJson path (encodeU32 m ++ encodeU32 v ++ encodeU32 l ++ rest) =
        .error (.errMsg (path ++ " is not a valid GLB file due to the missing magic number"))) ∧
    (∀ (parseJson : List Nat → Except LoadErr Json.Gltf) (path : String)
      (v l : Nat) (rest : List Nat), v < 4294967296 → v ≠ 2 →
      Gltf.load parseJson path (encodeU32 GLB_MAGIC ++ encodeU32 v ++ encodeU32 l ++ rest) =
        .error (.errMsg ("Aether only support GLB version 2, you are trying to use version "
          ++ toString v))) := by
  constructor
  · intro parseJson path m v l rest hm hv hmagic
    unfold Gltf.load
    simp only [List.append_assoc]
    simp only [readU32_encode m (encodeU32 v ++ (encodeU32 l ++ rest)) hm,
      readU32_encode v (encodeU32 l ++ rest) hv, readU32_encode_mod l rest]
    simp [hmagic]
  · intro parseJson path v l rest hv hver
    unfold Gltf.load
    simp only [List.append_assoc]
    simp only [readU32_encode GLB_MAGIC (encodeU32 v ++ (encodeU32 l ++ rest)) (by decide),
      readU32_encode v (encodeU32 l ++ rest) hv, readU32_encode_mod l rest]
    simp [hver]

/-- Witness for C5 at concrete inputs: magic 0 (with version 2) and
version 3 (with the correct magic). -/
theorem C5_bad_magic_or_version_rejected_witness :
    ((0 : Nat) < 4294967296 ∧ (2 : Nat) < 4294967296 ∧ (0 : Nat) ≠ GLB_MAGIC ∧
      Gltf.load (fun _ => .error (.errMsg "unused")) "scene.glb"
        (encodeU32 0 ++ encodeU32 2 ++ encodeU32 0 ++ []) =
        .error (.errMsg ("scene.glb" ++ " is not a valid GLB file due to the missing magic number"))) ∧
    ((3 : Nat) < 4294967296 ∧ (3 : Nat) ≠ 2 ∧
      Gltf.load (fun _ => .error (.errMsg "unused")) "scene.glb"
        (encodeU32 GLB_MAGIC ++ encodeU32 3 ++ encodeU32 0 ++ []) =
        .error (.errMsg ("Aether only support GLB version 2, you are trying to use version "
          ++ toString (3 : Nat)))) :=
  ⟨⟨by decide, by decide, by decide,
    C5_bad_magic_or_version_rejected.1 _ "scene.glb" 0 2 0 [] (by decide) (by decide) (by decide)⟩,
   ⟨by decide, by decide,
    C5_bad_magic_or_version_rejected.2 _ "scene.glb" 3 0 [] (by decide) (by decide)⟩⟩

/-- C6: with a valid header and recognized chunk type codes, a stream with
no JSON chunk fails naming the missing JSON chunk; a stream with a JSON
chunk (that parses) but no binary chunk fails naming the missing binary
chunk; a stream carrying one of each, in either order, passes chunk
validation and loads. -/
theorem C6_one_json_one_binary_required :
    (∀ (parseJson : List Nat → Except LoadErr Json.Gltf) (path : String)
      (cs : List (GlbChunkType × List Nat)),
      (∀ c ∈ cs, (c.2).length < 4294967296) →
      get_chunk (cs.map fun c => ⟨c.1, c.2⟩) .json = none →
      Gltf.load parseJson path (encodeGlb cs) =
        .error (.errMsg ("GLB file " ++ path ++ " has no JSON chunk"))) ∧
    (∀ (parseJson : List Nat → Except LoadErr Json.Gltf) (path : String)
      (cs : List (GlbChunkType × List Nat)) (jsonData : List Nat) (j : Json.Gltf),
      (∀ c ∈ cs, (c.2).length < 4294967296) →
      get_chunk (cs.map fun c => ⟨c.1, c.2⟩) .json = some jsonData →
      parseJson jsonData = .ok j →
      get_chunk (cs.map fun c => ⟨c.1, c.2⟩) .binary = none →
      Gltf.load parseJson path (encodeGlb cs) =
        .error (.errMsg ("GLB file " ++ path ++ " has no binary chunk"))) ∧
    (∀ (parseJson : List Nat → Except LoadErr Json.Gltf) (path : String)
      (cs : List (GlbChunkType × List Nat)) (jsonData binData : List Nat) (j : Json.Gltf),
      (∀ c ∈ cs, (c.2).length < 4294967296) →
      get_chunk (cs.map fun c => ⟨c.1, c.2⟩) .json = some jsonData →
      parseJson jsonData = .ok j →
      get_chunk (cs.map fun c => ⟨c.1, c.2⟩) .binary = some binData →
      Gltf.load parseJson path (encodeGlb cs) = .ok ⟨j, binData⟩) := by
  refine ⟨?_, ?_, ?_⟩
  · intro parseJson path cs hlen hjson
    rw [load_encodeGlb parseJson path cs hlen, hjson]
  · intro parseJson path cs jsonData j hlen hjson hparse hbin
    rw [load_encodeGlb parseJson path cs hlen]
    simp only [hjson, hparse, hbin]
  · intro parseJson path cs jsonData binData j hlen hjson hparse hbin
    rw [load_encodeGlb parseJson path cs hlen]
    simp only [hjson, hparse, hbin]

/-- Witness for C6: a stream with only a binary chunk, a stream with only a
JSON chunk, and a stream with both chunks in binary-first order. -/
theorem C6_one_json_one_binary_required_witness :
    (get_chunk ([((GlbChunkType.binary), [7])].map fun c => ⟨c.1, c.2⟩) .json = none ∧
      Gltf.load (fun _ => .ok ⟨[], [], [], [], [], [], 0⟩) "a.glb"
        (encodeGlb [(.binary, [7])]) =
        .error (.errMsg ("GLB file " ++ "a.glb" ++ " has no JSON chunk"))) ∧
    (Gltf.load (fun _ => .ok ⟨[], [], [], [], [], [], 0⟩) "a.glb"
        (encodeGlb [(.json, [1])]) =
        .error (.errMsg ("GLB file " ++ "a.glb" ++ " has no binary chunk"))) ∧
    (Gltf.load (fun _ => .ok ⟨[], [], [], [], [], [], 0⟩) "a.glb"
        (encodeGlb [(.binary, [9]), (.json, [1])]) =
        .ok ⟨⟨[], [], [], [], [], [], 0⟩, [9]⟩) :=
  ⟨⟨by decide,
    C6_one_json_one_binary_required.1 _ "a.glb" [(.binary, [7])] (by simp) (by decide)⟩,
   C6_one_json_one_binary_required.2.1 _ "a.glb" [(.json, [1])] [1] ⟨[], [], [], [], [], [], 0⟩
     (by simp) (by decide) (by decide) (by decide),
   C6_one_json_one_binary_required.2.2 _ "a.glb" [(.binary, [9]), (.json, [1])] [1] [9]
     ⟨[], [], [], [], [], [], 0⟩ (by simp) (by decide) (by decide) (by decide)⟩

/-- C9: a stream with duplicate chunks of a recognized type is accepted,
and the first chunk of each type in stream order supplies the JSON and
binary payloads. -/
theorem C9_duplicate_chunks_first_wins
    (parseJson : List Nat → Except LoadErr Json.Gltf) (path : String)
    (jd1 jd2 bd1 bd2 : List Nat) (j : Json.Gltf)
    (h1 : jd1.length < 4294967296) (h2 : jd2.length < 4294967296)
    (h3 : bd1.length < 4294967296) (h4 : bd2.length < 4294967296)
    (hparse : parseJson jd1 = .ok j) :
    Gltf.load parseJson path
      (encodeGlb [(.json, jd1), (.json, jd2), (.binary, bd1), (.binary, bd2)]) =
      .ok ⟨j, bd1⟩ := by
  have hlen : ∀ c ∈ [((GlbChunkType.json), jd1), (.json, jd2), (.binary, bd1), (.binary, bd2)],
      (c.2).length < 4294967296 := by
    intro c hc
    simp only [List.mem_cons, List.not_mem_nil, or_false] at hc
    rcases hc with rfl | rfl | rfl | rfl
    exacts [h1, h2, h3, h4]
  rw [load_encodeGlb parseJson path _ hlen]
  simp only [show get_chunk ([((GlbChunkType.json), jd1), (.json, jd2), (.binary, bd1),
    (.binary, bd2)].map fun c => ⟨c.1, c.2⟩) .json = some jd1 from rfl]
  simp only [show get_chunk ([((GlbChunkType.json), jd1), (.json, jd2), (.binary, bd1),
    (.binary, bd2)].map fun c => ⟨c.1, c.2⟩) .binary = some bd1 from rfl]
  simp only [hparse]

/-- Witness for C9: two JSON chunks and two binary chunks with distinct
payloads; the first of each is used. -/
theorem C9_duplicate_chunks_first_wins_witness :
    ((fun (_ : List Nat) => (Except.ok ⟨[], [], [], [], [], [], 0⟩ :
        Except LoadErr Json.Gltf)) [1] = .ok ⟨[], [], [], [], [], [], 0⟩) ∧
    Gltf.load (fun _ => (Except.ok ⟨[], [], [], [], [], [], 0⟩ : Except LoadErr Json.Gltf))
      "d.glb" (encodeGlb [(.json, [1]), (.json, [2]), (.binary, [3]), (.binary, [4])]) =
      .ok ⟨⟨[], [], [], [], [], [], 0⟩, [3]⟩ :=
  ⟨by decide,
   C9_duplicate_chunks_first_wins _ "d.glb" [1] [2] [3] [4] ⟨[], [], [], [], [], [], 0⟩
     (by decide) (by decide) (by decide) (by decide) (by decide)⟩

/-- C8: `load_buffers` rejects a JSON buffers table with more than one entry
with the unsupported-feature error; a table with exactly one entry passes
the check and produces the buffer backed by the binary chunk; an empty
table passes the multi-buffer check too (and then trips the `buffers[0]`
index, a distinct failure). -/
theorem C8_multiple_buffers_unsupported :
    (∀ (bin : List Nat) (buffers : List GltfRs.JsonBuffer), 1 < buffers.length →
      GltfRs.load_buffers bin buffers = .error (.errMsg
        "Aether currently only support loading data from the .glb binary chunk")) ∧
    (∀ (bin : List Nat) (b : GltfRs.JsonBuffer),
      GltfRs.load_buffers bin [b] = .ok ⟨b.byte_length, bin⟩) ∧
    (∀ bin : List Nat, GltfRs.load_buffers bin [] =
      .error (.panicMsg "index out of bounds: the len is 0 but the index is 0")) := by
  refine ⟨?_, ?_, ?_⟩
  · intro bin buffers h
    unfold GltfRs.load_buffers
    rw [if_neg (by omega)]
  · intro bin b
    unfold GltfRs.load_buffers
    rw [if_pos (by simp)]
  · intro bin
    unfold GltfRs.load_buffers
    rw [if_pos (by simp)]

/-- Witness for C8: a two-buffer table is rejected; a one-buffer table and
an empty table are not rejected by the multi-buffer check. -/
theorem C8_multiple_buffers_unsupported_witness :
    (1 < ([⟨4, none⟩, ⟨4, none⟩] : List GltfRs.JsonBuffer).length ∧
      GltfRs.load_buffers [1, 2] [⟨4, none⟩, ⟨4, none⟩] = .error (.errMsg
        "Aether currently only support loading data from the .glb binary chunk")) ∧
    GltfRs.load_buffers [1, 2] [(⟨2, none⟩ : GltfRs.JsonBuffer)] = .ok ⟨2, [1, 2]⟩ ∧
    GltfRs.load_buffers [1, 2] ([] : List GltfRs.JsonBuffer) =
      .error (.panicMsg "index out of bounds: the len is 0 but the index is 0") :=
  ⟨⟨by decide, C8_multiple_buffers_unsupported.1 [1, 2] [⟨4, none⟩, ⟨4, none⟩] (by decide)⟩,
   C8_multiple_buffers_unsupported.2.1 [1, 2] ⟨2, none⟩,
   C8_multiple_buffers_unsupported.2.2 [1, 2]⟩

/-- C3 counterexample: an unrecognized component type code (9999) and an
unrecognized element type string ("TENSOR") make the decoding `panic!`
(`LoadErr.panicMsg`, the crash channel) instead of failing with a
recoverable format error value (`LoadErr.errMsg`); the two constructors are
distinct, so the claim that decoding fails with a recoverable `FormatError`
and not a crash is false. -/
theorem C3_unknown_code_panics :
    componentTypeSize 9999 =
      .error (.panicMsg ("Invalid glTF accessor component type " ++ toString (9999 : Nat))) ∧
    elementTypeCount "TENSOR" =
      .error (.panicMsg ("Invalid glTF accessor element type " ++ "TENSOR")) := by
  constructor
  · decide
  · decide

/-- C3 (amended): the decoding tables are exact -- component type codes
5120/5121 map to byte width 1, 5122/5123 to 2, 5125/5126 to 4, and element
type strings SCALAR/VEC2/VEC3/VEC4/MAT2/MAT3/MAT4 map to counts
1/2/3/4/4/9/16 -- and every other code or string makes the operation
`panic!` with a message naming the bad code or string (a crash, not a
recoverable `FormatError` value). -/
theorem C3_type_tables :
    (componentTypeSize 5120 = .ok 1 ∧ componentTypeSize 5121 = .ok 1 ∧
      componentTypeSize 5122 = .ok 2 ∧ componentTypeSize 5123 = .ok 2 ∧
      componentTypeSize 5125 = .ok 4 ∧ componentTypeSize 5126 = .ok 4) ∧
    (elementTypeCount "SCALAR" = .ok 1 ∧ elementTypeCount "VEC2" = .ok 2 ∧
      elementTypeCount "VEC3" = .ok 3 ∧ elementTypeCount "VEC4" = .ok 4 ∧
      elementTypeCount "MAT2" = .ok 4 ∧ elementTypeCount "MAT3" = .ok 9 ∧
      elementTypeCount "MAT4" = .ok 16) ∧
    (∀ c : Nat, c ≠ 5120 → c ≠ 5121 → c ≠ 5122 → c ≠ 5123 → c ≠ 5125 → c ≠ 5126 →
      componentTypeSize c =
        .error (.panicMsg ("Invalid glTF accessor component type " ++ toString c))) ∧
    (∀ s : String, s ≠ "SCALAR" → s ≠ "VEC2" → s ≠ "VEC3" → s ≠ "VEC4" → s ≠ "MAT2" →
      s ≠ "MAT3" → s ≠ "MAT4" →
      elementTypeCount s =
        .error (.panicMsg ("Invalid glTF accessor element type " ++ s))) := by
  refine ⟨by decide, by decide, ?_, ?_⟩
  · intro c h1 h2 h3 h4 h5 h6
    simp [componentTypeSize, h1, h2, h3, h4, h5, h6]
  · intro s h1 h2 h3 h4 h5 h6 h7
    simp [elementTypeCount, h1, h2, h3, h4, h5, h6, h7]

/-- Witness for C3 at the fresh concrete inputs 5130 and "MAT5". -/
theorem C3_type_tables_witness :
    ((5130 : Nat) ≠ 5120 ∧ componentTypeSize 5130 =
      .error (.panicMsg ("Invalid glTF accessor component type " ++ toString (5130 : Nat)))) ∧
    ("MAT5" ≠ "SCALAR" ∧ elementTypeCount "MAT5" =
      .error (.panicMsg ("Invalid glTF accessor element type " ++ "MAT5"))) :=
  ⟨⟨by decide, C3_type_tables.2.2.1 5130 (by decide) (by decide) (by decide) (by decide)
      (by decide) (by decide)⟩,
   ⟨by decide, C3_type_tables.2.2.2 "MAT5" (by decide) (by decide) (by decide) (by decide)
      (by decide) (by decide) (by decide)⟩⟩

/-- The node given as the specification's transform-composition example:
scale (2,1,1), identity rotation quaternion (0,0,0,1), translation (5,0,0),
no explicit matrix. -/
def c2_failing_node : GltfRs.Node :=
  ⟨[], none, some (5, 0, 0), some (0, 0, 0, 1), some (2, 1, 1), none⟩

/-- C2: evaluation of `Node::get_matrix` at the specification's example
node. The code composes `matrix_comp_mult(R, scale(I, s)) * T`, which
applies the translation to a point before the scale: the resulting matrix
has translation column x-entry 10 (the transform x maps to 2 x + 10),
whereas the claimed composition (scale first, translate last, i.e. T R S)
has translation x-entry 5 (x maps to 2 x + 5). The two matrices differ, so
the code does not implement the claimed composition order. -/
theorem C2_trs_composition_diverges :
    GltfRs.Node.get_matrix c2_failing_node 0 3 = 10 ∧
    specTransformTRS (5, 0, 0) (0, 0, 0, 1) (2, 1, 1) 0 3 = 5 ∧
    GltfRs.Node.get_matrix c2_failing_node ≠ specTransformTRS (5, 0, 0) (0, 0, 0, 1) (2, 1, 1) := by
  have hcode : GltfRs.Node.get_matrix c2_failing_node 0 3 = 10 := by
    simp +decide [c2_failing_node, GltfRs.Node.get_matrix, GltfRs.scaleGlm, GltfRs.translateGlm,
      GltfRs.matMul, GltfRs.matrix_comp_mult, GltfRs.quat_to_mat4, GltfRs.identityMat,
      GltfRs.scalingMat, GltfRs.translationMat]
    norm_num
  have hspec : specTransformTRS (5, 0, 0) (0, 0, 0, 1) (2, 1, 1) 0 3 = 5 := by
    simp +decide [specTransformTRS, GltfRs.matMul, GltfRs.quat_to_mat4, GltfRs.scalingMat,
      GltfRs.translationMat]
  refine ⟨hcode, hspec, ?_⟩
  intro h
  have h03 := congrFun (congrFun h 0) 3
  rw [hcode, hspec] at h03
  norm_num at h03

/-- Inversion of a successful `Gltf::load`: the stream after the 12-byte
header parses into a chunk table; the first JSON chunk's payload parses to
the stored descriptor, and the first binary chunk's payload is the stored
buffer, byte for byte. -/
theorem load_ok_inv {parseJson : List Nat → Except LoadErr Json.Gltf} {path : String}
    {stream : List Nat} {g : Gltf} (h : Gltf.load parseJson path stream = .ok g) :
    ∃ chunks jsonData,
      readChunks (stream.drop 12) = .ok chunks ∧
      get_chunk chunks .json = some jsonData ∧
      parseJson jsonData = .ok g.gltf ∧
      get_chunk chunks .binary = some g.buffer := by
  unfold Gltf.load at h
  cases hr1 : readU32 stream with
  | error e => simp [hr1] at h
  | ok p1 =>
    obtain ⟨magic, s1⟩ := p1
    simp only [hr1] at h
    cases hr2 : readU32 s1 with
    | error e => simp [hr2] at h
    | ok p2 =>
      obtain ⟨version, s2⟩ := p2
      simp only [hr2] at h
      cases hr3 : readU32 s2 with
      | error e => simp [hr3] at h
      | ok p3 =>
        obtain ⟨len0, s3⟩ := p3
        simp only [hr3] at h
        by_cases hm : magic ≠ GLB_MAGIC
        · rw [if_pos hm] at h
          simp at h
        · rw [if_neg hm] at h
          by_cases hv : version ≠ 2
          · rw [if_pos hv] at h
            simp at h
          · rw [if_neg hv] at h
            cases hrc : readChunks s3 with
            | error e => simp [hrc] at h
            | ok chunks =>
              simp only [hrc] at h
              cases hj : get_chunk chunks .json with
              | none => simp [hj] at h
              | some jsonData =>
                simp only [hj] at h
                cases hp : parseJson jsonData with
                | error e => simp [hp] at h
                | ok j =>
                  simp only [hp] at h
                  cases hb : get_chunk chunks .binary with
                  | none => simp [hb] at h
                  | some binData =>
                    simp only [hb, Except.ok.injEq] at h
                    have hs3 : s3 = stream.drop 12 := by
                      have d1 := readU32_ok_drop hr1
                      have d2 := readU32_ok_drop hr2
                      have d3 := readU32_ok_drop hr3
                      rw [d3, d2, d1]
                      simp [List.drop_drop]
                    subst h
                    exact ⟨chunks, jsonData, hs3 ▸ hrc, hj, hp, hb⟩

/-- C1: any stream accepted by `Gltf::load` decomposes into a chunk table
whose first binary chunk payload is exactly the stored buffer and whose
first JSON chunk payload parses to the stored descriptor; and for every
in-range, well-typed accessor whose computed range fits the buffer,
`load_accessor_data` returns exactly the bytes of that binary chunk at
`[byteOffset + view offset, .. + width * componentCount * count)`. -/
theorem C1_accessor_data_roundtrip :
    (∀ (parseJson : List Nat → Except LoadErr Json.Gltf) (path : String)
      (stream : List Nat) (g : Gltf),
      Gltf.load parseJson path stream = .ok g →
      ∃ chunks, readChunks (stream.drop 12) = .ok chunks ∧
        get_chunk chunks .binary = some g.buffer ∧
        ∃ jsonData, get_chunk chunks .json = some jsonData ∧
          parseJson jsonData = .ok g.gltf) ∧
    (∀ (g : Gltf) (i : Nat) (a : Json.Accessor) (bv : Json.BufferView) (len : Nat),
      vecIndex g.gltf.accessors i = .ok a →
      vecIndex g.gltf.buffer_views a.buffer_view = .ok bv →
      Gltf.get_accessor_length a = .ok len →
      a.byte_offset + bv.byte_offset + len ≤ g.buffer.length →
      g.load_accessor_data ⟨i⟩ =
        .ok ((g.buffer.drop (a.byte_offset + bv.byte_offset)).take len)) := by
  constructor
  · intro parseJson path stream g hload
    obtain ⟨chunks, jsonData, hrc, hj, hp, hb⟩ := load_ok_inv hload
    exact ⟨chunks, hrc, hb, jsonData, hj, hp⟩
  · intro g i a bv len ha hbv hlen hrange
    exact load_accessor_data_ok g i a bv len ha hbv hlen hrange

/-- Concrete glTF descriptor for the C1 witness: one byte-typed SCALAR
accessor of count 2 at offset 1 inside a buffer view at offset 1. -/
def c1_json : Json.Gltf :=
  ⟨[⟨0, 1, 5121, 2, "SCALAR"⟩], [⟨5⟩], [⟨0, 1, 3⟩], [], [], [], 0⟩

/-- JSON parser stub for the C1 witness: accepts exactly the payload
`[42]`. -/
def c1Parse : List Nat → Except LoadErr Json.Gltf :=
  fun bytes => if bytes = [42] then .ok c1_json else .error (.errMsg "bad json")

/-- Synthetic GLB stream for the C1 witness. -/
def c1_stream : List Nat := encodeGlb [(.json, [42]), (.binary, [10, 20, 30, 40, 50])]

/-- Expected loaded aggregate for the C1 witness. -/
def c1_gltf : Gltf := ⟨c1_json, [10, 20, 30, 40, 50]⟩

/-- Witness for C1: the synthetic stream loads, decomposes as claimed, and
the accessor extracts bytes 2..4 of the binary chunk, i.e. `[30, 40]`. -/
theorem C1_accessor_data_roundtrip_witness :
    Gltf.load c1Parse "w.glb" c1_stream = .ok c1_gltf ∧
    (∃ chunks, readChunks (c1_stream.drop 12) = .ok chunks ∧
      get_chunk chunks .binary = some c1_gltf.buffer ∧
      ∃ jsonData, get_chunk chunks .json = some jsonData ∧
        c1Parse jsonData = .ok c1_gltf.gltf) ∧
    Gltf.load_accessor_data c1_gltf ⟨0⟩ = .ok [30, 40] := by
  have hload : Gltf.load c1Parse "w.glb" c1_stream = .ok c1_gltf := by
    rw [show c1_stream = encodeGlb [(.json, [42]), (.binary, [10, 20, 30, 40, 50])] from rfl,
      load_encodeGlb _ _ _ (by simp)]
    decide
  refine ⟨hload, C1_accessor_data_roundtrip.1 c1Parse "w.glb" c1_stream c1_gltf hload, ?_⟩
  have h2 := C1_accessor_data_roundtrip.2 c1_gltf 0 ⟨0, 1, 5121, 2, "SCALAR"⟩ ⟨0, 1, 3⟩ 2
    (by decide) (by decide) (by decide) (by decide)
  exact h2.trans (by decide)

/-- Concrete glTF descriptor for the C4 counterexample: an accessor of
count 7 (7 bytes) at offset 2 into a 4-byte buffer, so the computed range
2..9 leaves the buffer. -/
def c4_json : Json.Gltf :=
  ⟨[⟨0, 2, 5121, 7, "SCALAR"⟩], [⟨4⟩], [⟨0, 0, 4⟩], [], [], [], 0⟩

/-- JSON parser stub for the C4 counterexample. -/
def c4Parse : List Nat → Except LoadErr Json.Gltf :=
  fun bytes => if bytes = [7] then .ok c4_json else .error (.errMsg "bad json")

/-- Synthetic GLB stream for the C4 counterexample: binary chunk
`[1, 2, 3, 4]`. -/
def c4_stream : List Nat := encodeGlb [(.json, [7]), (.binary, [1, 2, 3, 4])]

/-- Loaded aggregate for the C4 counterexample. -/
def c4_gltf : Gltf := ⟨c4_json, [1, 2, 3, 4]⟩

/-- C4 counterexample: `Gltf::load` accepts the stream (no bounds check at
construction), but the first data access for the out-of-range accessor
evaluates to `LoadErr.panicMsg` -- the slice-indexing `panic!` channel --
and not to `LoadErr.errMsg`, the recoverable error-value channel. The claim
that the access surfaces as an error value to the caller and never as a
runtime panic is therefore false: `load_accessor_data` returns a bare
`&[u8]` and its only failure mode is the panic. -/
theorem C4_oob_access_is_a_panic :
    Gltf.load c4Parse "model.glb" c4_stream = .ok c4_gltf ∧
    Gltf.load_accessor_data c4_gltf ⟨0⟩ =
      .error (.panicMsg ("range end index " ++ toString (9 : Nat)
        ++ " out of range for slice of length " ++ toString (4 : Nat))) := by
  constructor
  · rw [show c4_stream = encodeGlb [(.json, [7]), (.binary, [1, 2, 3, 4])] from rfl,
      load_encodeGlb _ _ _ (by simp)]
    decide
  · decide

/-- C4 (amended): `Gltf::load` succeeds on any well-formed container whose
JSON chunk parses, with no bounds check against the accessors; the first
`load_accessor_data` call for an accessor whose computed range exceeds the
buffer fails deterministically, but as an out-of-bounds slice `panic!`
(naming the offending range), not as a recoverable error value. -/
theorem C4_oob_deferred_to_access :
    (∀ (g : Gltf) (i : Nat) (a : Json.Accessor) (bv : Json.BufferView) (len : Nat),
      vecIndex g.gltf.accessors i = .ok a →
      vecIndex g.gltf.buffer_views a.buffer_view = .ok bv →
      Gltf.get_accessor_length a = .ok len →
      g.buffer.length < a.byte_offset + bv.byte_offset + len →
      g.load_accessor_data ⟨i⟩ =
        .error (.panicMsg ("range end index "
          ++ toString (a.byte_offset + bv.byte_offset + len)
          ++ " out of range for slice of length " ++ toString g.buffer.length))) ∧
    (∀ (parseJson : List Nat → Except LoadErr Json.Gltf) (path : String)
      (cs : List (GlbChunkType × List Nat)) (jsonData binData : List Nat) (j : Json.Gltf),
      (∀ c ∈ cs, (c.2).length < 4294967296) →
      get_chunk (cs.map fun c => ⟨c.1, c.2⟩) .json = some jsonData →
      parseJson jsonData = .ok j →
      get_chunk (cs.map fun c => ⟨c.1, c.2⟩) .binary = some binData →
      Gltf.load parseJson path (encodeGlb cs) = .ok ⟨j, binData⟩) := by
  constructor
  · intro g i a bv len ha hbv hlen hrange
    exact load_accessor_data_oob g i a bv len ha hbv hlen hrange
  · intro parseJson path cs jsonData binData j hlen hjson hparse hbin
    rw [load_encodeGlb parseJson path cs hlen]
    simp only [hjson, hparse, hbin]

/-- Witness for the amended C4, at the counterexample's concrete data. -/
theorem C4_oob_deferred_to_access_witness :
    (Gltf.get_accessor_length ⟨0, 2, 5121, 7, "SCALAR"⟩ = .ok 7 ∧
      Gltf.load_accessor_data c4_gltf ⟨0⟩ =
        .error (.panicMsg ("range end index " ++ toString (2 + 0 + 7 : Nat)
          ++ " out of range for slice of length " ++ toString c4_gltf.buffer.length))) ∧
    Gltf.load c4Parse "m2.glb" (encodeGlb [(.json, [7]), (.binary, [1, 2, 3, 4])]) =
      .ok ⟨c4_json, [1, 2, 3, 4]⟩ :=
  ⟨⟨by decide, C4_oob_deferred_to_access.1 c4_gltf 0 ⟨0, 2, 5121, 7, "SCALAR"⟩ ⟨0, 0, 4⟩ 7
      (by decide) (by decide) (by decide) (by decide)⟩,
   C4_oob_deferred_to_access.2 c4Parse "m2.glb" [(.json, [7]), (.binary, [1, 2, 3, 4])]
     [7] [1, 2, 3, 4] c4_json (by simp) (by decide) (by decide) (by decide)⟩

/-- Concrete aggregate for the C7 counterpart: a mesh whose only primitive
has a POSITION accessor of count 0 and no indices accessor. -/
def c7_gltf : Gltf :=
  ⟨⟨[⟨0, 0, 5126, 0, "VEC3"⟩], [⟨0⟩], [⟨0, 0, 0⟩],
    [⟨[⟨[("POSITION", ⟨0⟩)], none⟩]⟩], [], [], 0⟩, []⟩

/-- C7: a `Gltf` whose meshes all materialize successfully has no primitive
without an indices accessor -- equivalently, a primitive with no indices
accessor always makes `to_meshes` fail, so no approximated non-indexed mesh
is ever emitted -- and on a concrete such aggregate the failure is the
unsupported-feature `panic!` naming the missing index buffer support. -/
theorem C7_non_indexed_primitive_rejected :
    (∀ (g : Gltf) (ms : List MeshData), Gltf.to_meshes g = .ok ms →
      ∀ mesh ∈ g.gltf.meshes, ∀ p ∈ mesh.primitives, p.indices ≠ none) ∧
    Gltf.to_meshes c7_gltf =
      .error (.panicMsg "Aether currently doesn't support glTF meshes without index buffers") := by
  constructor
  · intro g ms h mesh hmesh p hp
    unfold Gltf.to_meshes at h
    obtain ⟨nested, hn, _⟩ := except_bind_ok h
    obtain ⟨l, hl⟩ := collectResults_ok_forall hn mesh hmesh
    obtain ⟨md, hmd⟩ := collectResults_ok_forall hl p hp
    exact primitive_ok_has_indices hmd
  · decide

/-- Concrete indexed aggregate for the C7 witness: one primitive with a
12-byte POSITION accessor and a two-element 16-bit index accessor. -/
def c7_indexed_gltf : Gltf :=
  ⟨⟨[⟨0, 0, 5126, 1, "VEC3"⟩, ⟨1, 0, 5123, 2, "SCALAR"⟩], [⟨16⟩],
    [⟨0, 0, 12⟩, ⟨0, 12, 4⟩],
    [⟨[⟨[("POSITION", ⟨0⟩)], some ⟨1⟩⟩]⟩], [], [], 0⟩,
   [0, 0, 0, 0, 0, 0, 0, 0, 0, 0, 0, 0, 1, 0, 2, 0]⟩

/-- Witness for C7: a fully indexed aggregate materializes, and the theorem
then yields that its primitive indeed carries an indices accessor. -/
theorem C7_non_indexed_primitive_rejected_witness :
    Gltf.to_meshes c7_indexed_gltf = .ok [⟨[⟨(0, 0, 0)⟩], [1, 2]⟩] ∧
    (⟨[("POSITION", ⟨0⟩)], some ⟨1⟩⟩ : Json.MeshPrimitive).indices ≠ none := by
  have hok : Gltf.to_meshes c7_indexed_gltf = .ok [⟨[⟨(0, 0, 0)⟩], [1, 2]⟩] := by decide
  refine ⟨hok, ?_⟩
  exact C7_non_indexed_primitive_rejected.1 c7_indexed_gltf [⟨[⟨(0, 0, 0)⟩], [1, 2]⟩] hok
    ⟨[⟨[("POSITION", ⟨0⟩)], some ⟨1⟩⟩]⟩ (by decide) ⟨[("POSITION", ⟨0⟩)], some ⟨1⟩⟩ (by decide)

/-- C10: whenever `to_meshes` returns normally, every emitted index is
strictly below 65536: each index is read from two bytes as a little-endian
`u16` and only then widened to the engine's 32-bit index type. -/
theorem C10_indices_bounded_by_u16 :
    ∀ (g : Gltf) (ms : List MeshData), Gltf.to_meshes g = .ok ms →
      ∀ md ∈ ms, ∀ i ∈ md.indices, i < 65536 := by
  intro g ms h md hmd i hi
  unfold Gltf.to_meshes at h
  obtain ⟨nested, hn, hpure⟩ := except_bind_ok h
  simp only [pure, Except.pure, Except.ok.injEq] at hpure
  subst hpure
  obtain ⟨l, hlmem, hmdl⟩ := List.mem_flatten.mp hmd
  obtain ⟨mesh, _, hl⟩ := collectResults_ok_mem hn l hlmem
  obtain ⟨p, _, hpmd⟩ := collectResults_ok_mem hl md hmdl
  exact primitive_ok_indices_lt hpmd i hi

/-- Concrete aggregate for the C10 witness, with indices 500 and 65535. -/
def c10_gltf : Gltf :=
  ⟨⟨[⟨0, 0, 5126, 1, "VEC3"⟩, ⟨1, 0, 5123, 2, "SCALAR"⟩], [⟨16⟩],
    [⟨0, 0, 12⟩, ⟨0, 12, 4⟩],
    [⟨[⟨[("POSITION", ⟨0⟩)], some ⟨1⟩⟩]⟩], [], [], 0⟩,
   [0, 0, 0, 0, 0, 0, 0, 0, 0, 0, 0, 0, 244, 1, 255, 255]⟩

/-- Witness for C10: the concrete aggregate materializes with indices
`[500, 65535]`, and the theorem bounds the extracted index 65535. -/
theorem C10_indices_bounded_by_u16_witness :
    Gltf.to_meshes c10_gltf = .ok [⟨[⟨(0, 0, 0)⟩], [500, 65535]⟩] ∧ 65535 < 65536 := by
  have hok : Gltf.to_meshes c10_gltf = .ok [⟨[⟨(0, 0, 0)⟩], [500, 65535]⟩] := by decide
  refine ⟨hok, ?_⟩
  exact C10_indices_bounded_by_u16 c10_gltf [⟨[⟨(0, 0, 0)⟩], [500, 65535]⟩] hok
    ⟨[⟨(0, 0, 0)⟩], [500, 65535]⟩ (by decide) 65535 (by decide)

end Aetheria
